import Mathlib

/-!
Verification development for the crawler-search-ai repository.

The repository has three source files:
* `src/latest/redis.js` — Redis-backed frontier / visited-timestamp / document store.
* `src/latest/crawl.js` — the Redis crawl route (`POST`).
* `src/search.txt` — two Next.js routes: the search route (`loadIndex`, `GET`) and
  the crawl-and-index route (`crawlPage`, `fetchFallback`, `GET`).

JavaScript numbers used as millisecond timestamps are embedded as `Int`;
JavaScript strings as `String`; fallible operations return `Option`/`Except`.
External libraries (the WHATWG `URL` constructor, MiniSearch) are embedded from
their documented behaviour, restricted to the ways this repository uses them,
and each such model is marked in its doc comment.
-/

namespace CrawlerSearch

/-! ## redis.js: visited timestamps and the revisit window -/

/-- The revisit window from `canCrawlUrl` (redis.js line 34):
`const sixHours = 6 * 60 * 60 * 1000` (milliseconds). -/
def sixHours : Int := 6 * 60 * 60 * 1000

/-- Embedding of `markUrlVisited` (redis.js lines 23-26): the visited hash maps
the URL to the current time.  The hash is a finite map from URL to timestamp. -/
def markUrlVisited (visited : String → Option Int) (url : String) (now : Int) :
    String → Option Int :=
  fun u => if u = url then some now else visited u

/-- Embedding of `canCrawlUrl` (redis.js lines 29-36): if the URL has no entry
in the visited hash the result is `true`; otherwise the result is
`Date.now() - lastVisited > sixHours` with a strict comparison. -/
def canCrawlUrl (visited : String → Option Int) (url : String) (now : Int) : Bool :=
  match visited url with
  | none => true
  | some lastVisited => decide (now - lastVisited > sixHours)

/-! ## C1 theorems -/

/-- C1 counterexample: the claim says `canCrawlUrl` returns `true` for every
check at `T + d` with `d >= 6` hours, but at exactly `d = 6` hours
(21600000 ms after a visit at time 0) the code compares with strict `>` and
returns `false`. -/
theorem C1_counterexample :
    (21600000 : Int) ≥ sixHours ∧
      canCrawlUrl (markUrlVisited (fun _ => none) "https://a" 0) "https://a" 21600000
        = false := by
  constructor
  · decide
  · rfl

/-- C1 (amended): for a URL visited at time `T`, `canCrawlUrl` at time `T + d`
returns `false` for `d ≤ 6` hours and `true` for `d > 6` hours (the boundary
`d = 6` hours yields `false` because the code compares with strict `>`); a URL
with no recorded visit timestamp always yields `true`. -/
theorem C1_canCrawlUrl_spec (visited : String → Option Int) (url : String)
    (T d : Int) :
    (canCrawlUrl (markUrlVisited visited url T) url (T + d) = true ↔ d > sixHours) ∧
    (visited url = none → canCrawlUrl visited url (T + d) = true) := by
  constructor
  · simp only [canCrawlUrl, markUrlVisited, if_pos rfl]
    constructor
    · intro h
      simpa using of_decide_eq_true h
    · intro h
      simpa using h
  · intro h
    simp [canCrawlUrl, h]

/-- C1 witness: the amended theorem instantiated at a concrete visit time and
offset. -/
theorem C1_witness :
    (canCrawlUrl (markUrlVisited (fun _ => none) "https://a" 5) "https://a" (5 + 21600001)
        = true ↔ (21600001 : Int) > sixHours) ∧
      ((fun _ => (none : Option Int)) "https://a" = none →
        canCrawlUrl (fun _ => none) "https://a" (5 + 21600001) = true) :=
  C1_canCrawlUrl_spec (fun _ => none) "https://a" 5 21600001

/-! ## URL resolution

Both crawl routes call the platform `new URL(href, base)` constructor.  That
constructor is not code of this repository; the model below follows its
documented resolution behaviour, restricted to the three href shapes the
claims exercise: an already-absolute URL (contains `://`), a path-absolute
reference (starts with `/`), and a fragment-only reference (starts with `#`).
Any other shape is left unmodelled and resolves to `none`, which the embedded
extractors treat like the `catch` branch of the source (the anchor is
dropped). -/

/-- Splits a character list around the first occurrence of `pat` (which is
nonempty in every use): `some (before, after)` with the occurrence removed,
`none` when `pat` does not occur. -/
def splitFirst (pat : List Char) : List Char → Option (List Char × List Char)
  | [] => none
  | c :: rest =>
    if pat.isPrefixOf (c :: rest) then some ([], (c :: rest).drop pat.length)
    else match splitFirst pat rest with
      | some (before, after) => some (c :: before, after)
      | none => none

/-- String version of the JS `a.startsWith b`. -/
def strStartsWith (s pre : String) : Bool :=
  pre.data.isPrefixOf s.data

/-- String version of the JS `a.includes(c)` for a single character. -/
def strContainsChar (s : String) (c : Char) : Bool :=
  s.data.contains c

/-- String version of the JS `a.trim()`: leading and trailing whitespace
removed. -/
def jsTrim (s : String) : String :=
  String.mk (((s.data.dropWhile Char.isWhitespace).reverse.dropWhile
    Char.isWhitespace).reverse)

/-- A href that already carries a scheme separator is treated as absolute. -/
def isAbsoluteUrl (href : String) : Bool :=
  (splitFirst [':', '/', '/'] href.data).isSome

/-- The `scheme://host` part of an absolute URL; `none` when the string has no
scheme separator. -/
def originOf (url : String) : Option String :=
  match splitFirst [':', '/', '/'] url.data with
  | some (scheme, rest) =>
      some (String.mk (scheme ++ [':', '/', '/'] ++ rest.takeWhile (fun c => c ≠ '/')))
  | none => none

/-- Resolution of `new URL(href, base).href` for the modelled href shapes.
A fragment-only href keeps the base (with the empty path serialized as `/`)
and appends the fragment, matching the URL standard serialization. -/
def resolveUrl (base href : String) : Option String :=
  if isAbsoluteUrl href then some href
  else if strStartsWith href "/" then (originOf base).map (fun o => o ++ href)
  else if strStartsWith href "#" then
    (originOf base).map fun o =>
      let path : List Char := base.data.drop o.data.length
      (if path = [] then o ++ "/" else base) ++ href
  else none

/-! ## crawl.js: the Redis crawl route -/

/-- `const MAIN_URL` (crawl.js line 12). -/
def MAIN_URL : String := "https://idemitsu-lubricants-staging.webflow.io"

/-- `MAIN_URL.replace(/\/$/, '')` (crawl.js line 19): one trailing slash, if
present, is removed. -/
def normalizedMainUrl : String :=
  if MAIN_URL.data.getLast? = some '/' then String.mk MAIN_URL.data.dropLast
  else MAIN_URL

/-- `new URL(normalizedMainUrl).origin` (crawl.js line 20). -/
def crawlOrigin : String :=
  (originOf normalizedMainUrl).getD normalizedMainUrl

/-- Embedding of the link extraction in the crawl.js `POST` handler
(crawl.js lines 118-130): each anchor href is resolved against the page URL
`url`, kept when the absolute URL starts with the fixed `origin` and does not
contain `#`, then mapped to its absolute form.  The final `.map` of the
source re-resolves each kept href; since the filter already required that
resolution to succeed, this is `filterMap` over the kept hrefs. -/
def extractLinksCrawl (origin pageUrl : String) (hrefs : List (Option String)) :
    List String :=
  let kept := (hrefs.filterMap id).filter fun href =>
    match resolveUrl pageUrl href with
    | some absoluteUrl =>
        strStartsWith absoluteUrl origin && !(strContainsChar absoluteUrl '#')
    | none => false
  kept.filterMap (resolveUrl pageUrl)

/-- The document built for one crawled URL (crawl.js lines 105-111). -/
structure CrawlDocument where
  id : Nat
  title : String
  content : String
  url : String
  timestamp : Int
deriving DecidableEq

/-- A Redis side effect issued by the per-URL crawl task. -/
inductive RedisOp where
  | saveDoc (doc : CrawlDocument)
  | markVisited (url : String)
  | addToCrawl (url : String)
deriving DecidableEq

/-- The selector outputs of a successfully fetched page: the raw title text,
the body text after whitespace collapse and trim (crawl.js lines 98-102), and
the href attribute of each anchor. -/
structure FetchedPage where
  title : String
  bodyText : String
  hrefs : List (Option String)

/-- Outcome of one page navigation: the rendered page, or any failure thrown
inside the per-URL `try` block. -/
inductive FetchOutcome where
  | ok (page : FetchedPage)
  | err

/-- Embedding of the per-URL crawl task in the crawl.js `POST` handler
(crawl.js lines 81-140).  When `canCrawlUrl` answered `false` the task
returns before any page work; on a navigation failure the `catch` block only
logs and closes the page, issuing no Redis operation; on success the task
saves the document (with the constant `id` 1, which is declared once at line
42 and never incremented), marks the URL visited, and enqueues the extracted
links.  The Bool records whether `url` was pushed onto `crawledUrls`. -/
def crawlTask (now : Int) (origin url : String) (can : Bool)
    (outcome : FetchOutcome) : List RedisOp × Bool :=
  if !can then ([], false)
  else match outcome with
    | .err => ([], false)
    | .ok page =>
      let title := if jsTrim page.title = "" then url else jsTrim page.title
      let doc : CrawlDocument := ⟨1, title, page.bodyText, url, now⟩
      let links := extractLinksCrawl origin url page.hrefs
      (RedisOp.saveDoc doc :: RedisOp.markVisited url :: links.map RedisOp.addToCrawl,
        true)

/-! ## C2 theorems -/

/-- C2 counterexample: on the failure path of a crawl attempt (navigation
threw), `markUrlVisited` is not invoked — the task issues no Redis operation
at all — contradicting the claim that the visit timestamp is set on both the
success and the failure path. -/
theorem C2_counterexample :
    RedisOp.markVisited "https://idemitsu-lubricants-staging.webflow.io/p"
      ∉ (crawlTask 0 crawlOrigin "https://idemitsu-lubricants-staging.webflow.io/p"
          true FetchOutcome.err).1 := by
  simp [crawlTask]

/-- C2 (amended): `markUrlVisited` is invoked exactly on the success path —
after the document is saved — of a URL that passed the `canCrawlUrl` check;
on the failure path (and for a throttled URL) the visit timestamp is not
updated, so a failed fetch does not count as an attempt. -/
theorem C2_markVisited_spec (now : Int) (origin url : String) (can : Bool)
    (outcome : FetchOutcome) :
    RedisOp.markVisited url ∈ (crawlTask now origin url can outcome).1 ↔
      can = true ∧ ∃ page, outcome = FetchOutcome.ok page := by
  cases can with
  | false => simp [crawlTask]
  | true =>
    cases outcome with
    | err => simp [crawlTask]
    | ok page => simp [crawlTask]

/-- C2 witness: the amended theorem instantiated on the success path of a
concrete page. -/
theorem C2_witness :
    RedisOp.markVisited "https://a" ∈
        (crawlTask 7 crawlOrigin "https://a" true
          (FetchOutcome.ok ⟨"T", "body", []⟩)).1 ↔
      true = true ∧ ∃ page, FetchOutcome.ok ⟨"T", "body", []⟩ = FetchOutcome.ok page :=
  C2_markVisited_spec 7 crawlOrigin "https://a" true (FetchOutcome.ok ⟨"T", "body", []⟩)

/-! ## search.txt, crawl-and-index route: link extraction in `crawlPage` -/

/-- `const BASE_URL` of the crawl-and-index route (search.txt line 142),
with its trailing slash. -/
def BASE_URL : String := "https://idemitsu-lubricants-staging.webflow.io/"

/-- An anchor element as seen by the extractor: its href attribute (absent
for `<a>` without href) and its text. -/
structure Anchor where
  href : Option String
  text : String
deriving DecidableEq

/-- A kept link: the resolved absolute URL and the anchor text. -/
structure LinkPair where
  href : String
  text : String
deriving DecidableEq

/-- Embedding of the link extraction in `crawlPage` (search.txt lines
207-222): each href is resolved against the fixed `BASE_URL` — not against
the page URL, which does not appear in this code — and the pair is kept when
the resolved URL starts with `BASE_URL`.  Anchors without href and hrefs the
URL constructor rejects are dropped (the `.get()` of a cheerio `.map` drops
null returns). -/
def extractLinksSearch (anchors : List Anchor) : List LinkPair :=
  (anchors.filterMap fun a =>
    match a.href with
    | none => none
    | some href =>
      match resolveUrl BASE_URL href with
      | none => none
      | some absoluteUrl => some ⟨absoluteUrl, jsTrim a.text⟩).filter
    fun link => strStartsWith link.href BASE_URL

/-- The href list `crawlPage` returns for frontier seeding
(search.txt line 242): `links.map(link => link.href)`. -/
def crawlPageLinks (anchors : List Anchor) : List String :=
  (extractLinksSearch anchors).map (fun l => l.href)

/-! ## C3 theorems -/

/-- C3 counterexample: for the page of the claim (origin
`https://example.com`, anchors `/a`, `https://other.site/b`, `#frag`) neither
extractor yields `["https://example.com/a"]`.  The crawl-and-index extractor
resolves against the fixed `BASE_URL` — the page URL is not even an input —
keeping the `BASE_URL`-resolved `/a` and the fragment link; the Redis-route
extractor compares against the fixed configured origin, so every link of the
example page is dropped. -/
theorem C3_counterexample :
    crawlPageLinks
        [⟨some "/a", "a"⟩, ⟨some "https://other.site/b", "b"⟩, ⟨some "#frag", "c"⟩]
      = ["https://idemitsu-lubricants-staging.webflow.io/a",
         "https://idemitsu-lubricants-staging.webflow.io/#frag"] ∧
    crawlPageLinks
        [⟨some "/a", "a"⟩, ⟨some "https://other.site/b", "b"⟩, ⟨some "#frag", "c"⟩]
      ≠ ["https://example.com/a"] ∧
    extractLinksCrawl crawlOrigin "https://example.com"
        [some "/a", some "https://other.site/b", some "#frag"] = [] := by
  refine ⟨by decide, by decide, by decide⟩

/-- C3 (amended): extraction filters against the fixed configured site, not
the page origin, and applies no asset-extension denylist.  In the
crawl-and-index route every extracted link starts with the fixed `BASE_URL`
(hrefs are resolved against `BASE_URL`, and fragment links are kept); in the
Redis route every extracted link starts with the fixed configured origin and
contains no `#`; for a page at the configured origin with anchors `/a`,
`https://other.site/b`, `#frag`, the Redis route yields exactly the
origin-resolved `/a`. -/
theorem C3_extraction_spec (anchors : List Anchor) (pageUrl : String)
    (hrefs : List (Option String)) :
    (∀ l ∈ crawlPageLinks anchors, strStartsWith l BASE_URL = true) ∧
    (∀ l ∈ extractLinksCrawl crawlOrigin pageUrl hrefs,
        strStartsWith l crawlOrigin = true ∧ strContainsChar l '#' = false) ∧
    extractLinksCrawl crawlOrigin normalizedMainUrl
        [some "/a", some "https://other.site/b", some "#frag"]
      = [normalizedMainUrl ++ "/a"] := by
  refine ⟨?_, ?_, by decide⟩
  · intro l hl
    simp only [crawlPageLinks, extractLinksSearch, List.mem_map, List.mem_filter] at hl
    obtain ⟨p, ⟨_, hp⟩, rfl⟩ := hl
    exact hp
  · intro l hl
    simp only [extractLinksCrawl, List.mem_filterMap, List.mem_filter] at hl
    obtain ⟨href, ⟨_, hkept⟩, hres⟩ := hl
    rw [hres] at hkept
    simp only [Bool.and_eq_true, Bool.not_eq_true'] at hkept
    exact hkept

/-- C3 witness: the amended theorem instantiated on the example anchors. -/
theorem C3_witness :
    (∀ l ∈ crawlPageLinks
        [⟨some "/a", "a"⟩, ⟨some "https://other.site/b", "b"⟩, ⟨some "#frag", "c"⟩],
        strStartsWith l BASE_URL = true) ∧
    (∀ l ∈ extractLinksCrawl crawlOrigin normalizedMainUrl
        [some "/a", some "https://other.site/b", some "#frag"],
        strStartsWith l crawlOrigin = true ∧ strContainsChar l '#' = false) ∧
    extractLinksCrawl crawlOrigin normalizedMainUrl
        [some "/a", some "https://other.site/b", some "#frag"]
      = [normalizedMainUrl ++ "/a"] :=
  C3_extraction_spec
    [⟨some "/a", "a"⟩, ⟨some "https://other.site/b", "b"⟩, ⟨some "#frag", "c"⟩]
    normalizedMainUrl [some "/a", some "https://other.site/b", some "#frag"]

/-! ## search.txt, crawl-and-index route: content construction -/

/-- The truncation bound `substring(0, 100000)` (search.txt lines 197, 203). -/
def CONTENT_LIMIT : Nat := 100000

/-- The JS `s.substring(0, n)`: the first `n` characters. -/
def jsSubstring (s : String) (n : Nat) : String :=
  String.mk (s.data.take n)

/-- Embedding of the content construction shared by `crawlPage`
(search.txt lines 195-204 and 228-236) and `fetchFallback` (lines 285-294 and
318-326).  Cheerio text extraction and the regex passes are external, so the
inputs are the collapsed-and-trimmed body text and the tag-stripped raw HTML
text.  `bodyContent` is truncated to `CONTENT_LIMIT`; when both `bodyContent`
and `headings` are empty, the truncated tag-stripped HTML (or the literal
`No content available`) replaces the body; `content` is the template literal
with `headings` first, one space, then `bodyContent` — only the body side is
truncated. -/
def buildContent (headings collapsedBody strippedHtml : String) : String :=
  let bodyContent := jsSubstring collapsedBody CONTENT_LIMIT
  let bodyContent :=
    if bodyContent = "" ∧ headings = "" then
      let fb := jsSubstring strippedHtml CONTENT_LIMIT
      if fb = "" then "No content available" else fb
    else bodyContent
  headings ++ " " ++ bodyContent

theorem strLength_mk (l : List Char) : (String.mk l).length = l.length := rfl

theorem strLength_append (s t : String) : (s ++ t).length = s.length + t.length := by
  cases s with
  | mk a =>
    cases t with
    | mk b =>
      show (String.mk (a ++ b)).length = _
      simp [strLength_mk, String.length]

theorem jsSubstring_length (s : String) (n : Nat) :
    (jsSubstring s n).length = min n s.length := by
  cases s with
  | mk l => simp [jsSubstring, strLength_mk, String.length]

/-! ## C4 theorems -/

/-- C4 counterexample: with a one-character heading and a body of 100001
characters, the produced `content` has length 100002, exceeding the fixed
maximum 100000 — the truncation bound does not apply to the whole `content`
value. -/
theorem C4_counterexample :
    (buildContent "H" (String.mk (List.replicate 100001 'a')) "").length
        = CONTENT_LIMIT + 2 ∧
      CONTENT_LIMIT + 2 > CONTENT_LIMIT := by
  constructor
  · have hbody : (jsSubstring (String.mk (List.replicate 100001 'a'))
        CONTENT_LIMIT).length = 100000 := by
      rw [jsSubstring_length, strLength_mk, List.length_replicate]
      simp only [CONTENT_LIMIT]
      omega
    have hcond : ¬(jsSubstring (String.mk (List.replicate 100001 'a'))
        CONTENT_LIMIT = "" ∧ ("H" : String) = "") := by
      rintro ⟨-, h⟩
      exact absurd h (by decide)
    rw [buildContent]
    simp only [if_neg hcond]
    rw [strLength_append, strLength_append, hbody]
    simp only [CONTENT_LIMIT]
    rfl
  · simp only [CONTENT_LIMIT]
    omega

/-- C4 (amended): only the body side of `content` is truncated — the length
of `content` is bounded by the headings length plus one separator plus the
fixed maximum 100000, for every input, but not by 100000 itself. -/
theorem C4_content_bound (headings collapsedBody strippedHtml : String) :
    (buildContent headings collapsedBody strippedHtml).length
      ≤ headings.length + 1 + CONTENT_LIMIT := by
  rw [buildContent]
  by_cases hcond : jsSubstring collapsedBody CONTENT_LIMIT = "" ∧ headings = ""
  · simp only [if_pos hcond]
    by_cases hfb : jsSubstring strippedHtml CONTENT_LIMIT = ""
    · simp only [if_pos hfb]
      rw [strLength_append, strLength_append]
      have h1 : (" " : String).length = 1 := rfl
      have : ("No content available" : String).length ≤ CONTENT_LIMIT := by
        simp only [CONTENT_LIMIT]
        decide
      omega
    · simp only [if_neg hfb]
      rw [strLength_append, strLength_append, jsSubstring_length]
      have : (" " : String).length = 1 := rfl
      omega
  · simp only [if_neg hcond]
    rw [strLength_append, strLength_append, jsSubstring_length]
    have : (" " : String).length = 1 := rfl
    omega

/-- C4 witness: the amended bound holds with equality shape at the
counterexample inputs (heading `H`, 100001-character body). -/
theorem C4_witness :
    (buildContent "H" (String.mk (List.replicate 100001 'a')) "").length
      ≤ ("H" : String).length + 1 + CONTENT_LIMIT :=
  C4_content_bound "H" (String.mk (List.replicate 100001 'a')) ""

/-! ## JSON values and a model of MiniSearch

The snapshot file is JSON; MiniSearch is an external library.  The MiniSearch
model below covers exactly what this repository observes of it: creating an
index, `addAll`, `documentCount`.  Per the library documentation, `add`
throws when the document has no id (`id == null`) and throws
`MiniSearch: duplicate ID` when a document with the same id was already
added; `addAll` adds the documents in order, stopping at the first throw. -/

/-- A JSON value. -/
inductive Json where
  | null
  | bool (b : Bool)
  | num (n : Int)
  | str (s : String)
  | arr (items : List Json)
  | obj (fields : List (String × Json))

mutual

/-- Decidable equality of JSON values (the automatic deriving does not cover
this nested inductive). -/
def Json.decEq : (a b : Json) → Decidable (a = b)
  | .null, .null => .isTrue rfl
  | .null, .bool _ => .isFalse (fun h => nomatch h)
  | .null, .num _ => .isFalse (fun h => nomatch h)
  | .null, .str _ => .isFalse (fun h => nomatch h)
  | .null, .arr _ => .isFalse (fun h => nomatch h)
  | .null, .obj _ => .isFalse (fun h => nomatch h)
  | .bool _, .null => .isFalse (fun h => nomatch h)
  | .bool a, .bool b =>
    if h : a = b then .isTrue (congrArg Json.bool h)
    else .isFalse (fun hh => h (Json.bool.inj hh))
  | .bool _, .num _ => .isFalse (fun h => nomatch h)
  | .bool _, .str _ => .isFalse (fun h => nomatch h)
  | .bool _, .arr _ => .isFalse (fun h => nomatch h)
  | .bool _, .obj _ => .isFalse (fun h => nomatch h)
  | .num _, .null => .isFalse (fun h => nomatch h)
  | .num _, .bool _ => .isFalse (fun h => nomatch h)
  | .num a, .num b =>
    if h : a = b then .isTrue (congrArg Json.num h)
    else .isFalse (fun hh => h (Json.num.inj hh))
  | .num _, .str _ => .isFalse (fun h => nomatch h)
  | .num _, .arr _ => .isFalse (fun h => nomatch h)
  | .num _, .obj _ => .isFalse (fun h => nomatch h)
  | .str _, .null => .isFalse (fun h => nomatch h)
  | .str _, .bool _ => .isFalse (fun h => nomatch h)
  | .str _, .num _ => .isFalse (fun h => nomatch h)
  | .str a, .str b =>
    if h : a = b then .isTrue (congrArg Json.str h)
    else .isFalse (fun hh => h (Json.str.inj hh))
  | .str _, .arr _ => .isFalse (fun h => nomatch h)
  | .str _, .obj _ => .isFalse (fun h => nomatch h)
  | .arr _, .null => .isFalse (fun h => nomatch h)
  | .arr _, .bool _ => .isFalse (fun h => nomatch h)
  | .arr _, .num _ => .isFalse (fun h => nomatch h)
  | .arr _, .str _ => .isFalse (fun h => nomatch h)
  | .arr a, .arr b =>
    match Json.decEqList a b with
    | .isTrue h => .isTrue (congrArg Json.arr h)
    | .isFalse h => .isFalse (fun hh => h (Json.arr.inj hh))
  | .arr _, .obj _ => .isFalse (fun h => nomatch h)
  | .obj _, .null => .isFalse (fun h => nomatch h)
  | .obj _, .bool _ => .isFalse (fun h => nomatch h)
  | .obj _, .num _ => .isFalse (fun h => nomatch h)
  | .obj _, .str _ => .isFalse (fun h => nomatch h)
  | .obj _, .arr _ => .isFalse (fun h => nomatch h)
  | .obj a, .obj b =>
    match Json.decEqObj a b with
    | .isTrue h => .isTrue (congrArg Json.obj h)
    | .isFalse h => .isFalse (fun hh => h (Json.obj.inj hh))

/-- Decidable equality of JSON value lists. -/
def Json.decEqList : (a b : List Json) → Decidable (a = b)
  | [], [] => .isTrue rfl
  | [], _ :: _ => .isFalse (fun h => nomatch h)
  | _ :: _, [] => .isFalse (fun h => nomatch h)
  | x :: xs, y :: ys =>
    match Json.decEq x y with
    | .isFalse h => .isFalse (fun hh => h (List.cons.inj hh).1)
    | .isTrue h1 =>
      match Json.decEqList xs ys with
      | .isTrue h2 => .isTrue (by rw [h1, h2])
      | .isFalse h2 => .isFalse (fun hh => h2 (List.cons.inj hh).2)

/-- Decidable equality of JSON object field lists. -/
def Json.decEqObj : (a b : List (String × Json)) → Decidable (a = b)
  | [], [] => .isTrue rfl
  | [], _ :: _ => .isFalse (fun h => nomatch h)
  | _ :: _, [] => .isFalse (fun h => nomatch h)
  | (k, v) :: xs, (k2, v2) :: ys =>
    if hk : k = k2 then
      match Json.decEq v v2 with
      | .isTrue hv =>
        match Json.decEqObj xs ys with
        | .isTrue ht => .isTrue (by rw [hk, hv, ht])
        | .isFalse ht => .isFalse (fun hh => ht (List.cons.inj hh).2)
      | .isFalse hv =>
        .isFalse (fun hh => hv (congrArg Prod.snd (List.cons.inj hh).1))
    else .isFalse (fun hh => hk (congrArg Prod.fst (List.cons.inj hh).1))

end

instance : DecidableEq Json := Json.decEq

/-- JS property access `j.name` on a parsed JSON value: `none` when `j` is
not an object or lacks the property (JS `undefined`). -/
def getField (j : Json) (name : String) : Option Json :=
  match j with
  | .obj props => (props.find? (fun f => f.1 = name)).map (fun f => f.2)
  | _ => none

/-- JS truthiness of a parsed JSON value (`undefined` is handled by the
callers as a missing field). -/
def jsTruthy : Json → Bool
  | .null => false
  | .bool b => b
  | .num n => !(n == 0)
  | .str s => !(s == "")
  | .arr _ => true
  | .obj _ => true

/-- `Array.isArray`. -/
def isArray : Json → Bool
  | .arr _ => true
  | _ => false

/-- The MiniSearch state this repository observes: the configured field list,
the ids added so far, and the added documents. -/
structure MiniSearchIndex where
  fields : List Json
  docIds : List Json
  docs : List Json
deriving DecidableEq

/-- `miniSearch.documentCount`. -/
def MiniSearchIndex.documentCount (m : MiniSearchIndex) : Nat :=
  m.docIds.length

/-- Model of `MiniSearch.add`: extract the `id` field; a missing or null id
throws; a duplicate id throws; otherwise the document is appended. -/
def miniAdd (m : MiniSearchIndex) (d : Json) : Except String MiniSearchIndex :=
  match getField d "id" with
  | none => .error "MiniSearch: document does not have ID field"
  | some id =>
    if id = .null then .error "MiniSearch: document does not have ID field"
    else if id ∈ m.docIds then .error "MiniSearch: duplicate ID"
    else .ok { m with docIds := m.docIds ++ [id], docs := m.docs ++ [d] }

/-- Model of `MiniSearch.addAll`: the documents are added in order; the first
throw aborts the call. -/
def miniAddAll (m : MiniSearchIndex) (ds : List Json) : Except String MiniSearchIndex :=
  match ds with
  | [] => .ok m
  | d :: rest =>
    match miniAdd m d with
    | .ok m2 => miniAddAll m2 rest
    | .error e => .error e

/-- The field list both routes configure:
title, content, description, links (search.txt lines 45 and 147). -/
def searchFieldsJson : List Json :=
  [.str "title", .str "content", .str "description", .str "links"]

/-- A fresh MiniSearch instance over the given fields. -/
def emptyIndex (fields : List Json) : MiniSearchIndex :=
  ⟨fields, [], []⟩

/-! ## search.txt, search route: `loadIndex` and `GET` -/

/-- Outcome of `fs.readFile` plus `JSON.parse` (search.txt lines 13-14): a
read failure and a parse failure both throw into the `catch` of `loadIndex`;
otherwise the parsed value is available. -/
inductive SnapshotRead where
  | readError
  | parseError
  | parsed (j : Json)

/-- Validation of one of `parsedData.fields` / `parsedData.documents`
(search.txt lines 17-22): the property must exist, be truthy, and be an
array. -/
def invalidProp (v : Option Json) : Bool :=
  match v with
  | none => true
  | some x => !(jsTruthy x) || !(isArray x)

/-- Embedding of `loadIndex` (search.txt lines 11-55): on a read or parse
failure, on a validation failure of `fields` or `documents`, or on a throw
from `addAll` (duplicate or missing document id), the `catch` returns a fresh
empty MiniSearch instance; otherwise the index holds the snapshot
documents. -/
def loadIndex (r : SnapshotRead) : MiniSearchIndex :=
  match r with
  | .readError => emptyIndex searchFieldsJson
  | .parseError => emptyIndex searchFieldsJson
  | .parsed j =>
    if invalidProp (getField j "fields") || invalidProp (getField j "documents") then
      emptyIndex searchFieldsJson
    else
      match getField j "fields", getField j "documents" with
      | some (.arr fieldsArr), some (.arr docsArr) =>
        match miniAddAll (emptyIndex fieldsArr) docsArr with
        | .ok m => m
        | .error _ => emptyIndex searchFieldsJson
      | _, _ => emptyIndex searchFieldsJson

/-- The body of a search response: an error, or the result list. -/
inductive SearchBody where
  | errorBody (msg : String)
  | results (rs : List Json)
deriving DecidableEq

/-- Embedding of the search route `GET` (search.txt lines 57-130).  The
ranking performed by `miniSearch.search` is external, so it is a parameter
`searchFn`; the route logic is: missing or empty `query` parameter gives 400
before any index work; a loaded index with `documentCount === 0` gives 404;
otherwise 200 with the search results. -/
def searchGET (searchFn : MiniSearchIndex → String → List Json)
    (query : Option String) (r : SnapshotRead) : Nat × SearchBody :=
  match query with
  | none => (400, .errorBody "Query parameter is required")
  | some q =>
    if q = "" then (400, .errorBody "Query parameter is required")
    else
      let m := loadIndex r
      if m.documentCount = 0 then
        (404, .errorBody "No documents indexed. Run /api/crawl-and-index first.")
      else
        (200, .results (searchFn m q))

/-! ## C5 theorems -/

/-- C5: any read failure, parse failure, or validation failure of the
snapshot (missing or non-array `fields`, missing or non-array `documents`)
makes `loadIndex` fall back to the empty in-memory index, and a search
request over such a snapshot is answered (with the 404 nothing-indexed
response), never failed with a 500. -/
theorem C5_loadIndex_fallback (r : SnapshotRead)
    (h : r = .readError ∨ r = .parseError ∨
      ∃ j, r = .parsed j ∧
        (invalidProp (getField j "fields") = true ∨
          invalidProp (getField j "documents") = true)) :
    loadIndex r = emptyIndex searchFieldsJson ∧
      ∀ searchFn q, q ≠ "" →
        (searchGET searchFn (some q) r).1 = 404 := by
  have hempty : loadIndex r = emptyIndex searchFieldsJson := by
    rcases h with rfl | rfl | ⟨j, rfl, hbad⟩
    · rfl
    · rfl
    · rcases hbad with hbad | hbad <;>
        simp [loadIndex, hbad]
  refine ⟨hempty, ?_⟩
  intro searchFn q hq
  simp [searchGET, if_neg hq, hempty, emptyIndex, MiniSearchIndex.documentCount]

/-- C5 witness: a snapshot whose `documents` property is missing falls back
to the empty index and the request is answered with 404. -/
theorem C5_witness :
    loadIndex (.parsed (Json.obj [("fields", Json.arr [])]))
        = emptyIndex searchFieldsJson ∧
      ∀ searchFn q, q ≠ "" →
        (searchGET searchFn (some q)
          (.parsed (Json.obj [("fields", Json.arr [])]))).1 = 404 :=
  C5_loadIndex_fallback (.parsed (Json.obj [("fields", Json.arr [])]))
    (Or.inr (Or.inr ⟨Json.obj [("fields", Json.arr [])], rfl, Or.inr (by decide)⟩))

/-! ## C6 theorems -/

/-- C6: for a non-empty query, an index with zero documents is answered with
the distinct 404 nothing-indexed response, never a 200 with an empty list;
a 200 response implies the index holds at least one document. -/
theorem C6_emptyIndex_404 (searchFn : MiniSearchIndex → String → List Json)
    (q : String) (r : SnapshotRead) (hq : q ≠ "") :
    ((loadIndex r).documentCount = 0 →
      searchGET searchFn (some q) r
        = (404, .errorBody "No documents indexed. Run /api/crawl-and-index first.")) ∧
    (∀ rs, searchGET searchFn (some q) r = (200, .results rs) →
      (loadIndex r).documentCount ≠ 0) := by
  constructor
  · intro hzero
    simp [searchGET, if_neg hq, hzero]
  · intro rs h200 hzero
    simp [searchGET, if_neg hq, hzero] at h200

/-- C6 witness: with the empty snapshot read failing, a concrete non-empty
query receives the 404 nothing-indexed response. -/
theorem C6_witness :
    ((loadIndex .readError).documentCount = 0 →
      searchGET (fun _ _ => []) (some "lubricant") .readError
        = (404, .errorBody "No documents indexed. Run /api/crawl-and-index first.")) ∧
    (∀ rs, searchGET (fun _ _ => []) (some "lubricant") .readError = (200, .results rs) →
      (loadIndex .readError).documentCount ≠ 0) :=
  C6_emptyIndex_404 (fun _ _ => []) "lubricant" .readError (by decide)

/-! ## MiniSearch addAll lemmas (shared helpers) -/

theorem miniAdd_ok_docIds {m : MiniSearchIndex} {d : Json} {m2 : MiniSearchIndex}
    (h : miniAdd m d = .ok m2) :
    ∃ id, getField d "id" = some id ∧ id ≠ Json.null ∧ id ∉ m.docIds ∧
      m2.docIds = m.docIds ++ [id] := by
  cases hid : getField d "id" with
  | none => simp [miniAdd, hid] at h
  | some id =>
    by_cases hnull : id = Json.null
    · simp [miniAdd, hid, hnull] at h
    · by_cases hmem : id ∈ m.docIds
      · simp [miniAdd, hid, hnull, hmem] at h
      · simp [miniAdd, hid, hnull, hmem] at h
        refine ⟨id, hid ▸ rfl, hnull, hmem, ?_⟩
        rw [← h]

theorem miniAddAll_docIds_mono {ds : List Json} :
    ∀ {m m2 : MiniSearchIndex}, miniAddAll m ds = .ok m2 →
      ∀ id ∈ m.docIds, id ∈ m2.docIds := by
  induction ds with
  | nil =>
    intro m m2 h id hid
    unfold miniAddAll at h
    cases h
    exact hid
  | cons d rest ih =>
    intro m m2 h id hid
    unfold miniAddAll at h
    cases h1 : miniAdd m d with
    | error e => rw [h1] at h; exact absurd h (by simp)
    | ok m1 =>
      rw [h1] at h
      obtain ⟨i, -, -, -, hids⟩ := miniAdd_ok_docIds h1
      exact ih h id (by rw [hids]; exact List.mem_append_left _ hid)

theorem miniAddAll_ok_count {ds : List Json} :
    ∀ {m m2 : MiniSearchIndex}, miniAddAll m ds = .ok m2 →
      m2.documentCount = m.documentCount + ds.length := by
  induction ds with
  | nil =>
    intro m m2 h
    unfold miniAddAll at h
    cases h
    rfl
  | cons d rest ih =>
    intro m m2 h
    unfold miniAddAll at h
    cases h1 : miniAdd m d with
    | error e => rw [h1] at h; exact absurd h (by simp)
    | ok m1 =>
      rw [h1] at h
      obtain ⟨i, -, -, -, hids⟩ := miniAdd_ok_docIds h1
      have hcount : m1.documentCount = m.documentCount + 1 := by
        simp [MiniSearchIndex.documentCount, hids]
      rw [ih h, hcount, List.length_cons]
      omega

/-! ## C8 theorems -/

/-- C8 counterexample: with stable per-URL identity, adding the same one
document to the index a second time does not leave the document count
unchanged — the second `addAll` throws `MiniSearch: duplicate ID`, so the
second pipeline run fails (500) instead of producing a snapshot. -/
theorem C8_counterexample :
    miniAddAll (emptyIndex searchFieldsJson)
        [Json.obj [("id", Json.str BASE_URL)]]
      = .ok ⟨searchFieldsJson, [Json.str BASE_URL],
             [Json.obj [("id", Json.str BASE_URL)]]⟩ ∧
    miniAddAll ⟨searchFieldsJson, [Json.str BASE_URL],
        [Json.obj [("id", Json.str BASE_URL)]]⟩
        [Json.obj [("id", Json.str BASE_URL)]]
      = .error "MiniSearch: duplicate ID" := by
  exact ⟨rfl, rfl⟩

/-- C8 (amended): a successful `addAll` of `ds` increases the document count
by exactly `ds.length` — so re-running the pipeline over an unchanged site
with a fresh index instance per run yields the same document count — but
adding the same non-empty document list to the same index instance a second
time always throws (duplicate ID), so the add path is not idempotent: a warm
re-run fails with a 500 and writes no snapshot. -/
theorem C8_addAll_spec (m m2 : MiniSearchIndex) (ds : List Json)
    (h : miniAddAll m ds = .ok m2) (hne : ds ≠ []) :
    m2.documentCount = m.documentCount + ds.length ∧
      (miniAddAll m2 ds).isOk = false := by
  refine ⟨miniAddAll_ok_count h, ?_⟩
  cases ds with
  | nil => exact absurd rfl hne
  | cons d rest =>
    unfold miniAddAll at h
    cases h1 : miniAdd m d with
    | error e => rw [h1] at h; exact absurd h (by simp)
    | ok m1 =>
      rw [h1] at h
      obtain ⟨id, hid, hnull, -, hids⟩ := miniAdd_ok_docIds h1
      have hmem2 : id ∈ m2.docIds :=
        miniAddAll_docIds_mono h id (by rw [hids]; exact List.mem_append_right _ (by simp))
      show (miniAddAll m2 (d :: rest)).isOk = false
      have hdup : miniAdd m2 d = .error "MiniSearch: duplicate ID" := by
        simp [miniAdd, hid, hnull, hmem2]
      unfold miniAddAll
      simp [hdup, Except.isOk, Except.toBool]

/-- C8 witness: the amended theorem at the one-document run of the
counterexample. -/
theorem C8_witness :
    (⟨searchFieldsJson, [Json.str BASE_URL],
        [Json.obj [("id", Json.str BASE_URL)]]⟩ : MiniSearchIndex).documentCount
        = (emptyIndex searchFieldsJson).documentCount
          + [Json.obj [("id", Json.str BASE_URL)]].length ∧
      (miniAddAll
          ⟨searchFieldsJson, [Json.str BASE_URL],
            [Json.obj [("id", Json.str BASE_URL)]]⟩
          [Json.obj [("id", Json.str BASE_URL)]]).isOk = false :=
  C8_addAll_spec (emptyIndex searchFieldsJson)
    ⟨searchFieldsJson, [Json.str BASE_URL], [Json.obj [("id", Json.str BASE_URL)]]⟩
    [Json.obj [("id", Json.str BASE_URL)]] rfl (by simp)

/-! ## search.txt, crawl-and-index route: the indexing tail of `GET` -/

/-- The fallback document pushed when no document was crawled
(search.txt lines 382-393). -/
def fallbackDocument (now : String) : Json :=
  Json.obj
    [("id", .str BASE_URL),
     ("title", .str "Fallback Document"),
     ("description", .str "No content crawled"),
     ("content",
       .str "Failed to crawl content from the site. Please check site accessibility."),
     ("url", .str BASE_URL),
     ("links", .str ""),
     ("lastCrawled", .str now)]

/-- The document list handed to `addAll` (search.txt lines 382-397): the
crawled documents, or the single fallback document when none was created. -/
def documentsForIndexing (crawledDocs : List Json) (now : String) : List Json :=
  if crawledDocs.isEmpty then [fallbackDocument now] else crawledDocs

/-- Outcome of the indexing tail of the crawl-and-index `GET`. -/
inductive IndexRouteOutcome where
  | indexingFailed
  | zeroDocError
  | writeFailed
  | indexed (snapshotDocs : List Json)
deriving DecidableEq

/-- Embedding of the indexing tail of the crawl-and-index `GET`
(search.txt lines 381-454): `addAll` on the module-level MiniSearch instance
`m` (a throw lands in the outer catch, 500); the `documentCount === 0` check
(500); then the snapshot write — whose `documents` value is
`indexData.documents || documents`, and since the MiniSearch `toJSON`
serialization has no `documents` property this is the `documents` list built
by the route itself; a write failure is a separate 500. -/
def crawlIndexRoute (m : MiniSearchIndex) (crawledDocs : List Json)
    (now : String) (writeOk : Bool) : IndexRouteOutcome :=
  let documents := documentsForIndexing crawledDocs now
  match miniAddAll m documents with
  | .error _ => .indexingFailed
  | .ok m2 =>
    if m2.documentCount = 0 then .zeroDocError
    else if writeOk then .indexed documents
    else .writeFailed

/-! ## C9 theorems -/

/-- C9: the document list passed to `addAll` is never empty (the fallback
document is inserted when crawling produced none), the zero-document-count
500 branch after `addAll` is unreachable, and every snapshot the route
persists contains at least one document. -/
theorem C9_fallback_document_spec (m : MiniSearchIndex) (crawledDocs : List Json)
    (now : String) (writeOk : Bool) :
    documentsForIndexing crawledDocs now ≠ [] ∧
    crawlIndexRoute m crawledDocs now writeOk ≠ .zeroDocError ∧
    ∀ snapDocs, crawlIndexRoute m crawledDocs now writeOk = .indexed snapDocs →
      snapDocs ≠ [] := by
  have hne : documentsForIndexing crawledDocs now ≠ [] := by
    unfold documentsForIndexing
    cases crawledDocs with
    | nil => simp
    | cons d rest => simp
  refine ⟨hne, ?_, ?_⟩
  · unfold crawlIndexRoute
    cases hadd : miniAddAll m (documentsForIndexing crawledDocs now) with
    | error e => simp [hadd]
    | ok m2 =>
      have hcount := miniAddAll_ok_count hadd
      have hlen : (documentsForIndexing crawledDocs now).length ≠ 0 := by
        simpa [List.length_eq_zero] using hne
      have hpos : m2.documentCount ≠ 0 := by omega
      cases writeOk <;> simp [hadd, hpos]
  · intro snapDocs hout
    cases hadd : miniAddAll m (documentsForIndexing crawledDocs now) with
    | error e => simp [crawlIndexRoute, hadd] at hout
    | ok m2 =>
      by_cases hzero : m2.documentCount = 0
      · simp [crawlIndexRoute, hadd, hzero] at hout
      · cases writeOk with
        | false => simp [crawlIndexRoute, hadd, hzero] at hout
        | true =>
          simp [crawlIndexRoute, hadd, hzero] at hout
          subst hout
          exact hne

/-- C9 witness: with no crawled documents and a fresh index, the route
indexes exactly the fallback document. -/
theorem C9_witness :
    documentsForIndexing [] "t" ≠ [] ∧
    crawlIndexRoute (emptyIndex searchFieldsJson) [] "t" true ≠ .zeroDocError ∧
    ∀ snapDocs,
      crawlIndexRoute (emptyIndex searchFieldsJson) [] "t" true = .indexed snapDocs →
        snapDocs ≠ [] :=
  C9_fallback_document_spec (emptyIndex searchFieldsJson) [] "t" true

/-! ## redis.js: `saveToSearchIndex` -/

/-- The Redis string store: key-value pairs, most recent `SET` first. -/
def redisGet (store : List (String × String)) (key : String) : Option String :=
  (store.find? (fun kv => kv.1 = key)).map (fun kv => kv.2)

/-- Redis `SET key value`. -/
def redisSet (store : List (String × String)) (key value : String) :
    List (String × String) :=
  (key, value) :: store

/-- Embedding of `saveToSearchIndex` (redis.js lines 39-55).  The
`documentId` argument stands for the `uuidv4()` value generated inside the
function; its defining freshness property is supplied as a hypothesis where
needed.  The document is looked up at `index:` + id, then both branches of
the conditional issue the same `SET`.  The Bool records whether the update
branch ran. -/
def saveToSearchIndex (store : List (String × String))
    (documentId documentJson : String) : List (String × String) × Bool :=
  let existingDoc := redisGet store ("index:" ++ documentId)
  match existingDoc with
  | some _ => (redisSet store ("index:" ++ documentId) documentJson, true)
  | none => (redisSet store ("index:" ++ documentId) documentJson, false)

/-! ## C10 theorems -/

/-- C10: under the freshness of the generated UUID, the lookup at the new key
returns null, so the update branch never runs; the call prepends a new store
entry (the store grows by one, nothing is replaced); and every document the
Redis crawl task saves carries the constant id 1. -/
theorem C10_saveToSearchIndex_spec (store : List (String × String))
    (documentId documentJson : String)
    (hfresh : ("index:" ++ documentId) ∉ store.map Prod.fst) :
    redisGet store ("index:" ++ documentId) = none ∧
    (saveToSearchIndex store documentId documentJson).2 = false ∧
    (saveToSearchIndex store documentId documentJson).1
      = ("index:" ++ documentId, documentJson) :: store ∧
    (saveToSearchIndex store documentId documentJson).1.length = store.length + 1 ∧
    (∀ (now : Int) (origin url : String) (can : Bool) (outcome : FetchOutcome)
      (d : CrawlDocument),
        RedisOp.saveDoc d ∈ (crawlTask now origin url can outcome).1 → d.id = 1) := by
  have hget : redisGet store ("index:" ++ documentId) = none := by
    unfold redisGet
    rw [List.find?_eq_none.mpr]
    · rfl
    · intro kv hkv
      simp only [decide_eq_true_eq]
      intro heq
      exact hfresh (heq ▸ List.mem_map_of_mem Prod.fst hkv)
  refine ⟨hget, ?_, ?_, ?_, ?_⟩
  · simp [saveToSearchIndex, hget]
  · simp [saveToSearchIndex, hget, redisSet]
  · simp [saveToSearchIndex, hget, redisSet]
  · intro now origin url can outcome d hmem
    cases can with
    | false => simp [crawlTask] at hmem
    | true =>
      cases outcome with
      | err => simp [crawlTask] at hmem
      | ok page =>
        simp [crawlTask] at hmem
        subst hmem
        rfl

/-- C10 witness: the theorem at an empty store and a concrete id. -/
theorem C10_witness :
    redisGet [] ("index:" ++ "2c5ea4c0") = none ∧
    (saveToSearchIndex [] "2c5ea4c0" "doc").2 = false ∧
    (saveToSearchIndex [] "2c5ea4c0" "doc").1
      = [("index:" ++ "2c5ea4c0", "doc")] ∧
    (saveToSearchIndex [] "2c5ea4c0" "doc").1.length
      = ([] : List (String × String)).length + 1 ∧
    (∀ (now : Int) (origin url : String) (can : Bool) (outcome : FetchOutcome)
      (d : CrawlDocument),
        RedisOp.saveDoc d ∈ (crawlTask now origin url can outcome).1 → d.id = 1) :=
  C10_saveToSearchIndex_spec [] "2c5ea4c0" "doc" (by simp)

/-! ## search.txt, crawl-and-index route: `crawlPage` retry and fallback -/

/-- `retries = 2`, the default of `crawlPage` (search.txt line 156). -/
def RETRIES : Nat := 2

/-- The user agent set by both fetch strategies (search.txt lines 174, 263). -/
def USER_AGENT : String :=
  "Mozilla/5.0 (Windows NT 10.0; Win64; x64) AppleWebKit/537.36 (KHTML, like Gecko) Chrome/91.0.4472.124 Safari/537.36"

/-- The header profile of the primary (browser) strategy: the user agent set
via `setUserAgent` plus the extra HTTP headers (search.txt lines 174-179). -/
def primaryHeaderProfile : List (String × String) :=
  [("User-Agent", USER_AGENT),
   ("Accept-Language", "en-US,en;q=0.9"),
   ("Accept", "text/html,application/xhtml+xml"),
   ("Accept-Encoding", "gzip, deflate, br")]

/-- The header profile of the fallback plain HTTP GET
(search.txt lines 262-267). -/
def fallbackHeaderProfile : List (String × String) :=
  [("User-Agent", USER_AGENT),
   ("Accept-Language", "en-US,en;q=0.9"),
   ("Accept", "text/html,application/xhtml+xml"),
   ("Accept-Encoding", "gzip, deflate, br")]

/-- The cheerio selector outputs of a fetched page, as `crawlPage` and
`fetchFallback` read them: title text, the meta description attribute
(absent when the element or attribute is missing), the collapsed body text,
the tag-stripped raw HTML, the joined heading text, and the anchors. -/
structure PageExtract where
  title : String
  description : Option String
  collapsedBody : String
  strippedHtml : String
  headings : String
  anchors : List Anchor
deriving DecidableEq

/-- The document `crawlPage` / `fetchFallback` build
(search.txt lines 228-236 and 318-326). -/
structure SearchDocument where
  id : String
  title : String
  description : String
  content : String
  url : String
  links : String
  lastCrawled : String
deriving DecidableEq

/-- JS `Array.join(sep)` with a single space. -/
def joinSpace : List String → String
  | [] => ""
  | [s] => s
  | s :: rest => s ++ " " ++ joinSpace rest

/-- Document construction shared by both fetch strategies: id and url are the
page URL, the title defaults to `No title`, the description to the empty
string, the content is `buildContent`, and `links` serializes each kept link
as `text (href)`. -/
def buildSearchDocument (url now : String) (p : PageExtract) : SearchDocument :=
  { id := url
    title := if p.title = "" then "No title" else p.title
    description := p.description.getD ""
    content := buildContent p.headings p.collapsedBody p.strippedHtml
    url := url
    links := joinSpace ((extractLinksSearch p.anchors).map
      (fun l => l.text ++ " (" ++ l.href ++ ")"))
    lastCrawled := now }

/-- What `crawlPage` returns: a document (or null) and the href list. -/
structure CrawlPageResult where
  document : Option SearchDocument
  links : List String
deriving DecidableEq

/-- Observable resource events of one `crawlPage` call. -/
inductive CrawlEvent where
  | launch
  | delayMs (ms : Nat)
  | closeBrowser
  | fallbackFetch
deriving DecidableEq

/-- Outcome of one browser attempt: the extracted page, or a throw inside the
`try` block, with the flag telling whether the error message contained
`ENOEXEC`. -/
inductive AttemptResult where
  | ok (page : PageExtract)
  | err (enoexec : Bool)
deriving DecidableEq

/-- Whether the attempt threw. -/
def AttemptResult.failed : AttemptResult → Bool
  | .ok _ => false
  | .err _ => true

/-- Whether the attempt threw with an `ENOEXEC` error message. -/
def AttemptResult.isEnoexec : AttemptResult → Bool
  | .ok _ => false
  | .err e => e

/-- Embedding of `fetchFallback` (search.txt lines 258-338): on success the
same document construction as the primary strategy; any throw (network
failure or a non-ok response status) is caught and yields the explicit
no-content value `{document: null, links: []}`. -/
def fetchFallbackRun (url now : String) (outcome : Option PageExtract) :
    CrawlPageResult :=
  match outcome with
  | none => ⟨none, []⟩
  | some p => ⟨some (buildSearchDocument url now p), crawlPageLinks p.anchors⟩

/-- Embedding of the retry loop of `crawlPage` (search.txt lines 164-254),
one list entry per attempt outcome.  Each attempt launches a browser; the
`finally` closes it whatever happened; a successful attempt returns the
document and links; a failed attempt falls through to `fetchFallback` when
the message contained `ENOEXEC` or the attempt was the last, and otherwise
waits 1000 ms (inside the catch, before the `finally` close) and retries.
An empty outcome list models the loop ending without an attempt, after which
the function returns undefined — unreachable when one outcome per allowed
attempt is supplied. -/
def crawlPageAttempts (url now : String) (attempt : Nat)
    (outcomes : List AttemptResult) (fallback : Option PageExtract) :
    CrawlPageResult × List CrawlEvent :=
  match outcomes with
  | [] => (⟨none, []⟩, [])
  | o :: rest =>
    match o with
    | .ok p =>
      (⟨some (buildSearchDocument url now p), crawlPageLinks p.anchors⟩,
        [.launch, .closeBrowser])
    | .err enoexec =>
      if enoexec || attempt == RETRIES then
        (fetchFallbackRun url now fallback, [.launch, .fallbackFetch, .closeBrowser])
      else
        let next := crawlPageAttempts url now (attempt + 1) rest fallback
        (next.1, [.launch, .delayMs 1000, .closeBrowser] ++ next.2)

/-- Embedding of `crawlPage` (search.txt lines 156-255): an already-visited
URL returns the no-content value before any browser work; otherwise the
retry loop runs starting at attempt 1. -/
def crawlPageRun (url now : String) (alreadyVisited : Bool)
    (outcomes : List AttemptResult) (fallback : Option PageExtract) :
    CrawlPageResult × List CrawlEvent :=
  if alreadyVisited then (⟨none, []⟩, [])
  else crawlPageAttempts url now 1 outcomes fallback

/-! ## C7 theorems -/

/-- C7: over the two possible attempts of one `crawlPage` call (outcomes
`o1`, `o2`): at most 2 browser launches happen; the browser is closed once
per launch, whatever the outcome; the 1-second delay happens exactly between
a failed non-ENOEXEC first attempt and the second; the fallback HTTP GET is
reached whenever ENOEXEC occurs or the retries are exhausted; when the
fallback also fails the result is the explicit no-content value; and the
fallback carries the same header profile as the primary strategy. -/
theorem C7_crawlPage_spec (url now : String) (o1 o2 : AttemptResult)
    (fb : Option PageExtract) :
    ((crawlPageRun url now false [o1, o2] fb).2.count CrawlEvent.launch ≤ RETRIES) ∧
    ((crawlPageRun url now false [o1, o2] fb).2.count CrawlEvent.closeBrowser
      = (crawlPageRun url now false [o1, o2] fb).2.count CrawlEvent.launch) ∧
    ((crawlPageRun url now false [o1, o2] fb).2.count (CrawlEvent.delayMs 1000)
      = if o1 = AttemptResult.err false then 1 else 0) ∧
    ((o1.isEnoexec = true ∨ (o1.failed = true ∧ o2.failed = true)) →
      CrawlEvent.fallbackFetch ∈ (crawlPageRun url now false [o1, o2] fb).2) ∧
    ((o1.isEnoexec = true ∨ (o1.failed = true ∧ o2.failed = true)) → fb = none →
      (crawlPageRun url now false [o1, o2] fb).1 = ⟨none, []⟩) ∧
    primaryHeaderProfile = fallbackHeaderProfile := by
  cases o1 with
  | ok p1 =>
    simp [crawlPageRun, crawlPageAttempts, AttemptResult.isEnoexec,
      AttemptResult.failed, RETRIES, List.count_cons, primaryHeaderProfile,
      fallbackHeaderProfile]
  | err e1 =>
    cases e1 with
    | true =>
      cases fb with
      | none =>
        simp [crawlPageRun, crawlPageAttempts, fetchFallbackRun,
          AttemptResult.isEnoexec, AttemptResult.failed, RETRIES, List.count_cons,
          primaryHeaderProfile, fallbackHeaderProfile]
      | some p =>
        simp [crawlPageRun, crawlPageAttempts, fetchFallbackRun,
          AttemptResult.isEnoexec, AttemptResult.failed, RETRIES, List.count_cons,
          primaryHeaderProfile, fallbackHeaderProfile]
    | false =>
      cases o2 with
      | ok p2 =>
        simp [crawlPageRun, crawlPageAttempts, fetchFallbackRun,
          AttemptResult.isEnoexec, AttemptResult.failed, RETRIES, List.count_cons,
          primaryHeaderProfile, fallbackHeaderProfile]
      | err e2 =>
        cases fb with
        | none =>
          simp [crawlPageRun, crawlPageAttempts, fetchFallbackRun,
            AttemptResult.isEnoexec, AttemptResult.failed, RETRIES, List.count_cons,
          primaryHeaderProfile, fallbackHeaderProfile]
        | some p =>
          simp [crawlPageRun, crawlPageAttempts, fetchFallbackRun,
            AttemptResult.isEnoexec, AttemptResult.failed, RETRIES, List.count_cons,
          primaryHeaderProfile, fallbackHeaderProfile]

/-- C7 witness: both attempts fail (no ENOEXEC) and the fallback fails too —
two launches, two closes, one delay, fallback reached, no-content result,
identical header profiles. -/
theorem C7_witness :
    ((crawlPageRun "https://a" "t" false
        [AttemptResult.err false, AttemptResult.err false] none).2.count
      CrawlEvent.launch ≤ RETRIES) ∧
    ((crawlPageRun "https://a" "t" false
        [AttemptResult.err false, AttemptResult.err false] none).2.count
        CrawlEvent.closeBrowser
      = (crawlPageRun "https://a" "t" false
          [AttemptResult.err false, AttemptResult.err false] none).2.count
          CrawlEvent.launch) ∧
    ((crawlPageRun "https://a" "t" false
        [AttemptResult.err false, AttemptResult.err false] none).2.count
        (CrawlEvent.delayMs 1000)
      = if (AttemptResult.err false) = AttemptResult.err false then 1 else 0) ∧
    (((AttemptResult.err false).isEnoexec = true ∨
        ((AttemptResult.err false).failed = true ∧
          (AttemptResult.err false).failed = true)) →
      CrawlEvent.fallbackFetch ∈ (crawlPageRun "https://a" "t" false
        [AttemptResult.err false, AttemptResult.err false] none).2) ∧
    (((AttemptResult.err false).isEnoexec = true ∨
        ((AttemptResult.err false).failed = true ∧
          (AttemptResult.err false).failed = true)) →
      (none : Option PageExtract) = none →
      (crawlPageRun "https://a" "t" false
        [AttemptResult.err false, AttemptResult.err false] none).1 = ⟨none, []⟩) ∧
    primaryHeaderProfile = fallbackHeaderProfile :=
  C7_crawlPage_spec "https://a" "t" (AttemptResult.err false)
    (AttemptResult.err false) none

end CrawlerSearch
